import Mathlib

/-!
Verification of the `createWithReset` factory of the zustand-with-reset
library (src/index.ts) against its natural-language specification.

The embedding models JavaScript objects as association lists from field
names to values, with the insertion-order update-or-append semantics of
property assignment, and models a zustand store as the pair of the
closure-held Initial Snapshot and the current state object.  Callable
values are distinguished from data values exactly as the source does with
the check typeof v === "function".
-/

set_option autoImplicit false

namespace ZustandWithReset

/-- Primitive and reference values a data field can hold.  A `vref` is an
object reference; two `vref` values denote the same JavaScript reference
exactly when their identifiers agree, so equality of `DataVal` models the
shallow, by-reference capture of the Initial Snapshot. -/
inductive DataVal where
  | vnull : DataVal
  | vundef : DataVal
  | vnum : Int → DataVal
  | vstr : String → DataVal
  | vbool : Bool → DataVal
  | vref : Nat → DataVal
deriving DecidableEq, Repr

/-- Callable values.  A user-supplied function is opaque and carries an
identifier; how it transforms the state is supplied separately when a call
is executed.  The two injected defaults are the closures
`defaultResetStore` and `defaultResetState` of the wrapper, each capturing
the `initialState` snapshot it closed over at construction time. -/
inductive FuncVal where
  | userFn : Nat → FuncVal
  | defResetStore : List (String × DataVal) → FuncVal
  | defResetState : List (String × DataVal) → FuncVal
  | protoFn : String → FuncVal
deriving DecidableEq, Repr

/-- A JavaScript value held in a state field; the source's test
typeof v === "function" holds exactly for the `fn` constructor. -/
inductive JSValue where
  | data : DataVal → JSValue
  | fn : FuncVal → JSValue
deriving DecidableEq, Repr

/-- The check typeof v === "function". -/
def isFunction : JSValue → Bool
  | JSValue.data _ => false
  | JSValue.fn _ => true

/-- Property read on a JavaScript object represented as an association
list.  Objects built by the code have pairwise distinct keys, for which the
first match is the unique match. -/
def objLookup {V : Type} : List (String × V) → String → Option V
  | [], _ => none
  | (k1, v1) :: rest, k => if k = k1 then some v1 else objLookup rest k

/-- Property assignment o[k] = v: overwrite the existing entry in place if
the key is present, otherwise append a new entry, matching the insertion
order semantics of JavaScript objects. -/
def objSet {V : Type} : List (String × V) → String → V → List (String × V)
  | [], k, v => [(k, v)]
  | (k1, v1) :: rest, k, v =>
      if k = k1 then (k, v) :: rest else (k1, v1) :: objSet rest k v

/-- Shallow merge of a list of entries onto an object, assigning each entry
left to right: the semantics of an object spread followed by overriding
assignments, and of a zustand merge-style write. -/
def mergeState {V : Type} (s : List (String × V)) : List (String × V) → List (String × V)
  | [] => s
  | (k, v) :: rest => mergeState (objSet s k v) rest

/-- One iteration of the snapshot loop of the wrapper: copy the field into
the snapshot when its value is not a function, skip it otherwise. -/
def snapStep (acc : List (String × DataVal)) (kv : String × JSValue) :
    List (String × DataVal) :=
  match kv.2 with
  | JSValue.data d => objSet acc kv.1 d
  | JSValue.fn _ => acc

/-- The `initialState` snapshot built by the wrapper of `createWithReset`:
walk the keys of the raw state and copy every field whose value is not a
function.  Mirrors the Object.keys(state).forEach loop of the source. -/
def buildInitialState (fields : List (String × JSValue)) : List (String × DataVal) :=
  fields.foldl snapStep []

/-- A live store: the Initial Snapshot held by the closures created at
construction, plus the current state object.  Only `state` is ever written
after construction. -/
structure Store where
  snapshot : List (String × DataVal)
  state : List (String × JSValue)
deriving DecidableEq, Repr

/-- A zustand `set` call with the default merge semantics. -/
def setMerge (st : Store) (p : List (String × JSValue)) : Store :=
  { st with state := mergeState st.state p }

/-- The body of the injected `defaultResetStore` closure:
set(initialState), a single merge-style write of the whole snapshot. -/
def runDefaultResetStore (snap : List (String × DataVal)) (st : Store) : Store :=
  setMerge st (snap.map (fun kd => (kd.1, JSValue.data kd.2)))

/-- One variadic argument of `resetState`: a single key or an array of
keys. -/
inductive KeyArg where
  | single : String → KeyArg
  | list : List String → KeyArg
deriving DecidableEq, Repr

/-- The keys.flat() call of `defaultResetState`: flatten the variadic
arguments one level into a single list of field names. -/
def flattenKeys (args : List KeyArg) : List String :=
  args.flatMap (fun a =>
    match a with
    | KeyArg.single k => [k]
    | KeyArg.list ks => ks)

/-- Names of the members every plain object built from an object literal
inherits from Object.prototype, all of them function-valued, which the
JavaScript in operator also finds.  The accessor name spelled with two
leading and trailing underscores is deliberately not listed: in JavaScript
its in-check succeeds too, but the subsequent staging assignment
resetValues[key] = initialState[key] invokes the inherited prototype
setter and creates no own entry, so the staged object and the merged state
are exactly as if the guard had failed; the model folds those two steps
into the guard. -/
def objectProtoNames : List String :=
  ["constructor", "hasOwnProperty", "isPrototypeOf", "propertyIsEnumerable",
   "toLocaleString", "toString", "valueOf",
   "__defineGetter__", "__defineSetter__", "__lookupGetter__", "__lookupSetter__"]

/-- The JavaScript test key in initialState: true for an own key of the
snapshot object and for a member the plain snapshot object inherits from
Object.prototype. -/
def jsInSnapshot (snap : List (String × DataVal)) (key : String) : Bool :=
  (objLookup snap key).isSome || key ∈ objectProtoNames

/-- The JavaScript property read initialState[key] under that guard: the
own snapshotted value when present, otherwise the function-valued member
inherited from Object.prototype. -/
def snapshotRead (snap : List (String × DataVal)) (key : String) : JSValue :=
  match objLookup snap key with
  | some d => JSValue.data d
  | none => JSValue.fn (FuncVal.protoFn key)

/-- One iteration of the staging loop of `defaultResetState`: when the in
operator finds the key on the snapshot object, as an own key or inherited
from Object.prototype, stage the value the property read returns;
otherwise skip the key silently. -/
def stageStep (snap : List (String × DataVal)) (acc : List (String × JSValue))
    (key : String) : List (String × JSValue) :=
  if jsInSnapshot snap key then objSet acc key (snapshotRead snap key) else acc

/-- The staging loop of `defaultResetState`: for each flattened key the in
operator finds on the snapshot object, stage the value its property read
returns into `resetValues`; other keys are skipped silently. -/
def stageResetValues (snap : List (String × DataVal)) (keysToReset : List String) :
    List (String × JSValue) :=
  keysToReset.foldl (stageStep snap) []

/-- The body of the injected `defaultResetState` closure: flatten the
arguments, stage the value of every requested key the in operator finds on
the snapshot object, and issue one merge-style write containing only the
staged fields. -/
def runDefaultResetState (snap : List (String × DataVal)) (args : List KeyArg)
    (st : Store) : Store :=
  setMerge st (stageResetValues snap (flattenKeys args))

/-- Invoke the callable stored at field `name` of the live store.  A user
function with identifier `i` runs the caller-supplied behaviour `userSem i`
on the current state: user code holds only the set/get handles, so it can
read and merge-write the state but cannot reach the snapshot closure.  A
built-in Object.prototype method that a reset staged into the state is
callable but never writes the state.  Returns `none` when the field is
absent or not callable, which in JavaScript is a TypeError at the call
site. -/
def callField (userSem : Nat → List (String × JSValue) → List (String × JSValue))
    (st : Store) (name : String) (args : List KeyArg) : Option Store :=
  match objLookup st.state name with
  | some (JSValue.fn (FuncVal.userFn i)) => some { st with state := userSem i st.state }
  | some (JSValue.fn (FuncVal.defResetStore snap)) => some (runDefaultResetStore snap st)
  | some (JSValue.fn (FuncVal.defResetState snap)) => some (runDefaultResetState snap args st)
  | some (JSValue.fn (FuncVal.protoFn _)) => some st
  | _ => none

/-- A non-object value the initializer may return instead of a state
object. -/
inductive PrimVal where
  | pnull : PrimVal
  | pundef : PrimVal
  | pnum : Int → PrimVal
  | pbool : Bool → PrimVal
  | pstr : String → PrimVal
deriving DecidableEq, Repr

/-- What the caller-supplied initializer returned when it did not throw: a
proper object, given as its association list of fields, or a non-object. -/
inductive RawValue where
  | obj : List (String × JSValue) → RawValue
  | nonObject : PrimVal → RawValue
deriving DecidableEq, Repr

/-- Outcome of one invocation of the caller-supplied initializer: it either
throws or returns a value. -/
inductive CreatorResult where
  | thrown : String → CreatorResult
  | ret : RawValue → CreatorResult
deriving DecidableEq, Repr

/-- Errors are modelled by their JavaScript class name; every failure the
wrapper itself can produce is a built-in TypeError. -/
def typeErrorName : String := "TypeError"

/-- Behaviour of Object.keys applied to a non-object, per JavaScript
semantics: it throws a TypeError on null and undefined, and otherwise
coerces and returns the enumerable own keys of the wrapper object, which
are the index entries for a string and nothing for other primitives. -/
def primObjectKeysEntries : PrimVal → Except String (List (String × JSValue))
  | PrimVal.pnull => Except.error typeErrorName
  | PrimVal.pundef => Except.error typeErrorName
  | PrimVal.pnum _ => Except.ok []
  | PrimVal.pbool _ => Except.ok []
  | PrimVal.pstr s =>
      Except.ok (s.toList.enum.map
        (fun ic => (toString ic.1, JSValue.data (DataVal.vstr (String.mk [ic.2])))))

/-- Result of a successful construction, together with instrumentation
recording whether the two default closures were allocated.  In the source
the two const definitions of the default closures execute unconditionally,
before the user-override check decides which value each reset field
receives, so both flags are true on every successful construction. -/
structure BuildResult where
  store : Store
  constructedDefaultResetStore : Bool
  constructedDefaultResetState : Bool
deriving DecidableEq, Repr

/-- The wrapper initializer of `createWithReset`, applied to the outcome of
the single call to the caller-supplied state creator, mirroring the source
line by line: propagate a thrown error unchanged; build `initialState`
from the non-function fields; detect a user-supplied callable `resetStore`
or `resetState` field; allocate the two default closures; and return the
spread of the raw state with the two reset fields assigned.  On a
non-object raw state JavaScript itself throws a TypeError inside the
wrapper before any state object is returned: Object.keys throws for null
and undefined, and otherwise the later check with the `in` operator
applied to a primitive throws, so construction fails and no store is
produced. -/
def buildStore : CreatorResult → Except String BuildResult
  | CreatorResult.thrown e => Except.error e
  | CreatorResult.ret (RawValue.nonObject p) =>
      match primObjectKeysEntries p with
      | Except.error e => Except.error e
      | Except.ok _ => Except.error typeErrorName
  | CreatorResult.ret (RawValue.obj fields) =>
      let initialState := buildInitialState fields
      let userDefinedResetStore :=
        match objLookup fields "resetStore" with
        | some v => isFunction v
        | none => false
      let userDefinedResetState :=
        match objLookup fields "resetState" with
        | some v => isFunction v
        | none => false
      let defaultResetStore := JSValue.fn (FuncVal.defResetStore initialState)
      let defaultResetState := JSValue.fn (FuncVal.defResetState initialState)
      let resetStoreField :=
        if userDefinedResetStore then (objLookup fields "resetStore").getD defaultResetStore
        else defaultResetStore
      let resetStateField :=
        if userDefinedResetState then (objLookup fields "resetState").getD defaultResetState
        else defaultResetState
      Except.ok
        { store :=
            { snapshot := initialState
              state := mergeState fields
                [("resetStore", resetStoreField), ("resetState", resetStateField)] }
          constructedDefaultResetStore := true
          constructedDefaultResetState := true }

/-- The public factory: it invokes the engine's create primitive exactly
once with the wrapper initializer, and the caller-supplied creator is
invoked exactly once inside the wrapper.  The creator is modelled as the
sequence of results its successive invocations would produce; the factory
consumes only invocation number zero. -/
def createWithReset (creator : Nat → CreatorResult) : Except String BuildResult :=
  buildStore (creator 0)

/-- An operation the outside world can perform on a live store: an external
merge-style write, or a call of a behaviour field by name. -/
inductive StoreOp where
  | write : List (String × JSValue) → StoreOp
  | call : String → List KeyArg → StoreOp

/-- Apply one store operation.  Calling a field that is absent or not
callable throws at the call site and leaves the state unchanged. -/
def applyOp (userSem : Nat → List (String × JSValue) → List (String × JSValue))
    (st : Store) : StoreOp → Store
  | StoreOp.write p => setMerge st p
  | StoreOp.call name args =>
      match callField userSem st name args with
      | some st2 => st2
      | none => st

/-- Apply a sequence of store operations in order. -/
def applyOps (userSem : Nat → List (String × JSValue) → List (String × JSValue))
    (st : Store) (ops : List StoreOp) : Store :=
  ops.foldl (applyOp userSem) st

/-- Apply a sequence of merge-style writes in order. -/
def applyWrites (st : Store) (writes : List (List (String × JSValue))) : Store :=
  writes.foldl setMerge st

/-! Lemmas about object lookup, assignment and merge. -/

/-- The first of two options, a disambiguated spelling of Option.orElse
used to state merge lemmas. -/
def firstSome {V : Type} (a b : Option V) : Option V :=
  match a with
  | some v => some v
  | none => b

theorem objLookup_objSet {V : Type} (s : List (String × V)) (k k2 : String) (v : V) :
    objLookup (objSet s k v) k2 = if k2 = k then some v else objLookup s k2 := by
  induction s with
  | nil => by_cases h2 : k2 = k <;> simp [objSet, objLookup, h2]
  | cons hd tl ih =>
      obtain ⟨k1, v1⟩ := hd
      by_cases h1 : k = k1
      · subst h1
        by_cases h2 : k2 = k <;> simp [objSet, objLookup, h2]
      · by_cases h2 : k2 = k1
        · subst h2
          have hne : ¬k2 = k := fun hc => h1 (hc ▸ rfl)
          simp [objSet, objLookup, h1, hne]
        · simp [objSet, objLookup, h1, h2, ih]

theorem objLookup_eq_none {V : Type} (s : List (String × V)) (k : String)
    (h : k ∉ s.map Prod.fst) : objLookup s k = none := by
  induction s with
  | nil => rfl
  | cons hd tl ih =>
      obtain ⟨k1, v1⟩ := hd
      simp only [List.map_cons, List.mem_cons] at h
      push_neg at h
      simp [objLookup, h.1, ih h.2]

theorem mem_keys_iff_isSome {V : Type} (s : List (String × V)) (k : String) :
    k ∈ s.map Prod.fst ↔ (objLookup s k).isSome := by
  induction s with
  | nil => simp [objLookup]
  | cons hd tl ih =>
      obtain ⟨k1, v1⟩ := hd
      by_cases h : k = k1 <;> simp [objLookup, h, ih]

theorem mem_keys_objSet {V : Type} (s : List (String × V)) (k k2 : String) (v : V) :
    k2 ∈ (objSet s k v).map Prod.fst ↔ k2 ∈ s.map Prod.fst ∨ k2 = k := by
  rw [mem_keys_iff_isSome, mem_keys_iff_isSome, objLookup_objSet]
  by_cases h : k2 = k <;> simp [h]

theorem nodup_keys_objSet {V : Type} (s : List (String × V)) (k : String) (v : V)
    (h : (s.map Prod.fst).Nodup) : ((objSet s k v).map Prod.fst).Nodup := by
  induction s with
  | nil => simp [objSet]
  | cons hd tl ih =>
      obtain ⟨k1, v1⟩ := hd
      simp only [List.map_cons, List.nodup_cons] at h
      simp only [objSet]
      by_cases h1 : k = k1
      · rw [if_pos h1]
        simp only [List.map_cons, List.nodup_cons]
        refine ⟨?_, h.2⟩
        rw [h1]
        exact h.1
      · rw [if_neg h1]
        simp only [List.map_cons, List.nodup_cons, mem_keys_objSet]
        refine ⟨?_, ih h.2⟩
        rintro (hmem | hk)
        · exact h.1 hmem
        · exact h1 hk.symm

theorem objLookup_map {V W : Type} (f : V → W) (s : List (String × V)) (k : String) :
    objLookup (s.map (fun kv => (kv.1, f kv.2))) k = (objLookup s k).map f := by
  induction s with
  | nil => rfl
  | cons hd tl ih =>
      obtain ⟨k1, v1⟩ := hd
      by_cases h : k = k1 <;> simp [objLookup, h, ih]

theorem keys_map_snd {V W : Type} (f : V → W) (s : List (String × V)) :
    (s.map (fun kv => (kv.1, f kv.2))).map Prod.fst = s.map Prod.fst := by
  induction s with
  | nil => rfl
  | cons hd tl ih => simp [ih]

theorem objLookup_mergeState_nodup {V : Type} (p s : List (String × V)) (k : String)
    (h : (p.map Prod.fst).Nodup) :
    objLookup (mergeState s p) k = firstSome (objLookup p k) (objLookup s k) := by
  induction p generalizing s with
  | nil => simp [mergeState, objLookup, firstSome]
  | cons hd tl ih =>
      obtain ⟨k1, v1⟩ := hd
      simp only [List.map_cons, List.nodup_cons] at h
      show objLookup (mergeState (objSet s k1 v1) tl) k = _
      rw [ih _ h.2]
      by_cases hk : k = k1
      · subst hk
        rw [objLookup_eq_none tl k h.1]
        simp [objLookup, objLookup_objSet, firstSome]
      · simp [objLookup, objLookup_objSet, hk, firstSome]

/-! Lemmas about the snapshot construction and the staging loop. -/

theorem objLookup_foldl_snapStep_not_mem (fields : List (String × JSValue))
    (acc : List (String × DataVal)) (k : String) (h : k ∉ fields.map Prod.fst) :
    objLookup (fields.foldl snapStep acc) k = objLookup acc k := by
  induction fields generalizing acc with
  | nil => rfl
  | cons hd tl ih =>
      obtain ⟨k1, v1⟩ := hd
      simp only [List.map_cons, List.mem_cons] at h
      push_neg at h
      show objLookup (tl.foldl snapStep (snapStep acc (k1, v1))) k = _
      rw [ih _ h.2]
      cases v1 with
      | data d => simp [snapStep, objLookup_objSet, h.1]
      | fn f => rfl

theorem objLookup_foldl_snapStep (fields : List (String × JSValue))
    (acc : List (String × DataVal)) (k : String)
    (h : (fields.map Prod.fst).Nodup) :
    objLookup (fields.foldl snapStep acc) k =
      match objLookup fields k with
      | some (JSValue.data d) => some d
      | some (JSValue.fn _) => objLookup acc k
      | none => objLookup acc k := by
  induction fields generalizing acc with
  | nil => rfl
  | cons hd tl ih =>
      obtain ⟨k1, v1⟩ := hd
      simp only [List.map_cons, List.nodup_cons] at h
      show objLookup (tl.foldl snapStep (snapStep acc (k1, v1))) k = _
      by_cases hk : k = k1
      · rw [objLookup_foldl_snapStep_not_mem tl _ k (by rw [hk]; exact h.1)]
        cases v1 with
        | data d => simp [snapStep, objLookup_objSet, hk, objLookup]
        | fn f => simp [snapStep, objLookup, hk]
      · rw [ih _ h.2]
        have hstep : objLookup (snapStep acc (k1, v1)) k = objLookup acc k := by
          cases v1 with
          | data d => simp [snapStep, objLookup_objSet, hk]
          | fn f => rfl
        have hlook : objLookup ((k1, v1) :: tl) k = objLookup tl k := by
          simp [objLookup, hk]
        rw [hlook, hstep]

theorem objLookup_buildInitialState (fields : List (String × JSValue)) (k : String)
    (h : (fields.map Prod.fst).Nodup) :
    objLookup (buildInitialState fields) k =
      match objLookup fields k with
      | some (JSValue.data d) => some d
      | _ => none := by
  rw [buildInitialState, objLookup_foldl_snapStep fields [] k h]
  cases hv : objLookup fields k with
  | none => rfl
  | some v => cases v <;> rfl

theorem nodup_keys_foldl_snapStep (fields : List (String × JSValue))
    (acc : List (String × DataVal)) (h : (acc.map Prod.fst).Nodup) :
    ((fields.foldl snapStep acc).map Prod.fst).Nodup := by
  induction fields generalizing acc with
  | nil => exact h
  | cons hd tl ih =>
      show ((tl.foldl snapStep (snapStep acc hd)).map Prod.fst).Nodup
      apply ih
      obtain ⟨k1, v1⟩ := hd
      cases v1 with
      | data d => exact nodup_keys_objSet acc k1 d h
      | fn f => exact h

theorem nodup_keys_buildInitialState (fields : List (String × JSValue)) :
    ((buildInitialState fields).map Prod.fst).Nodup :=
  nodup_keys_foldl_snapStep fields [] (by simp)

theorem objLookup_foldl_stageStep (snap : List (String × DataVal)) (keys : List String)
    (acc : List (String × JSValue)) (k : String) :
    objLookup (keys.foldl (stageStep snap) acc) k =
      if k ∈ keys ∧ jsInSnapshot snap k = true
      then some (snapshotRead snap k)
      else objLookup acc k := by
  induction keys generalizing acc with
  | nil => simp
  | cons key rest ih =>
      show objLookup (rest.foldl (stageStep snap) (stageStep snap acc key)) k = _
      rw [ih]
      have hstep : objLookup (stageStep snap acc key) k =
          if k = key ∧ jsInSnapshot snap k = true
          then some (snapshotRead snap k)
          else objLookup acc k := by
        by_cases hkey : k = key
        · subst hkey
          by_cases hin : jsInSnapshot snap k = true
          · simp [stageStep, hin, objLookup_objSet]
          · simp [stageStep, hin]
        · by_cases hin2 : jsInSnapshot snap key = true
          · simp [stageStep, hin2, objLookup_objSet, hkey]
          · simp [stageStep, hin2, hkey]
      rw [hstep]
      by_cases hin : jsInSnapshot snap k = true
      · by_cases hrest : k ∈ rest
        · rw [if_pos ⟨hrest, hin⟩, if_pos ⟨List.mem_cons_of_mem key hrest, hin⟩]
        · rw [if_neg (fun hc => hrest hc.1)]
          by_cases hkey : k = key
          · have hk2 : k ∈ key :: rest := by
              rw [hkey]
              exact List.mem_cons_self key rest
            rw [if_pos ⟨hkey, hin⟩, if_pos ⟨hk2, hin⟩]
          · rw [if_neg (fun hc => hkey hc.1),
              if_neg (fun hc => (List.mem_cons.mp hc.1).elim hkey hrest)]
      · rw [if_neg (fun hc => hin hc.2), if_neg (fun hc => hin hc.2),
          if_neg (fun hc => hin hc.2)]

theorem objLookup_stageResetValues (snap : List (String × DataVal))
    (keys : List String) (k : String) :
    objLookup (stageResetValues snap keys) k =
      if k ∈ keys ∧ jsInSnapshot snap k = true
      then some (snapshotRead snap k)
      else none := by
  rw [stageResetValues, objLookup_foldl_stageStep]
  by_cases h : k ∈ keys ∧ jsInSnapshot snap k = true <;> simp [h, objLookup]

theorem nodup_keys_foldl_stageStep (snap : List (String × DataVal)) (keys : List String)
    (acc : List (String × JSValue)) (h : (acc.map Prod.fst).Nodup) :
    ((keys.foldl (stageStep snap) acc).map Prod.fst).Nodup := by
  induction keys generalizing acc with
  | nil => exact h
  | cons key rest ih =>
      show ((rest.foldl (stageStep snap) (stageStep snap acc key)).map Prod.fst).Nodup
      apply ih
      by_cases hin : jsInSnapshot snap key = true
      · simp only [stageStep, if_pos hin]
        exact nodup_keys_objSet acc key _ h
      · simp only [stageStep, if_neg hin]
        exact h

theorem nodup_keys_stageResetValues (snap : List (String × DataVal)) (keys : List String) :
    ((stageResetValues snap keys).map Prod.fst).Nodup :=
  nodup_keys_foldl_stageStep snap keys [] (by simp)

theorem foldl_stageStep_absent (snap : List (String × DataVal)) (keys : List String)
    (acc : List (String × JSValue))
    (h : ∀ key ∈ keys, jsInSnapshot snap key = false) :
    keys.foldl (stageStep snap) acc = acc := by
  induction keys generalizing acc with
  | nil => rfl
  | cons key rest ih =>
      show rest.foldl (stageStep snap) (stageStep snap acc key) = acc
      have hkey : jsInSnapshot snap key = false :=
        h key (List.mem_cons_self key rest)
      rw [ih _ (fun k2 hk2 => h k2 (List.mem_cons_of_mem key hk2))]
      simp [stageStep, hkey]

/-! Lemmas about snapshot immutability. -/

theorem snapshot_setMerge (st : Store) (p : List (String × JSValue)) :
    (setMerge st p).snapshot = st.snapshot := rfl

theorem snapshot_callField
    (u : Nat → List (String × JSValue) → List (String × JSValue))
    (st : Store) (name : String) (args : List KeyArg) (st2 : Store)
    (h : callField u st name args = some st2) : st2.snapshot = st.snapshot := by
  unfold callField at h
  cases hv : objLookup st.state name with
  | none => rw [hv] at h; cases h
  | some v =>
      rw [hv] at h
      cases v with
      | data d => cases h
      | fn f =>
          cases f with
          | userFn i => cases h; rfl
          | defResetStore snap => cases h; rfl
          | defResetState snap => cases h; rfl
          | protoFn s => cases h; rfl

theorem snapshot_applyOp
    (u : Nat → List (String × JSValue) → List (String × JSValue))
    (st : Store) (op : StoreOp) : (applyOp u st op).snapshot = st.snapshot := by
  cases op with
  | write p => rfl
  | call name args =>
      show (match callField u st name args with
            | some st2 => st2
            | none => st).snapshot = st.snapshot
      cases h : callField u st name args with
      | none => rfl
      | some st2 => exact snapshot_callField u st name args st2 h

theorem snapshot_applyOps
    (u : Nat → List (String × JSValue) → List (String × JSValue))
    (st : Store) (ops : List StoreOp) : (applyOps u st ops).snapshot = st.snapshot := by
  induction ops generalizing st with
  | nil => rfl
  | cons op rest ih =>
      show (applyOps u (applyOp u st op) rest).snapshot = st.snapshot
      rw [ih, snapshot_applyOp]

/-! Characterization of a successful construction. -/

/-- The value the construction assigns to the `resetStore` field: the raw
state's own field when it is callable, the injected default closure
otherwise. -/
def resetStoreValue (fields : List (String × JSValue)) : JSValue :=
  match objLookup fields "resetStore" with
  | some (JSValue.fn f) => JSValue.fn f
  | _ => JSValue.fn (FuncVal.defResetStore (buildInitialState fields))

/-- The value the construction assigns to the `resetState` field: the raw
state's own field when it is callable, the injected default closure
otherwise. -/
def resetStateValue (fields : List (String × JSValue)) : JSValue :=
  match objLookup fields "resetState" with
  | some (JSValue.fn f) => JSValue.fn f
  | _ => JSValue.fn (FuncVal.defResetState (buildInitialState fields))

/-- Canonical form of the result of a successful construction. -/
def builtResult (fields : List (String × JSValue)) : BuildResult :=
  { store :=
      { snapshot := buildInitialState fields
        state := mergeState fields
          [("resetStore", resetStoreValue fields),
           ("resetState", resetStateValue fields)] }
    constructedDefaultResetStore := true
    constructedDefaultResetState := true }

theorem buildStore_obj_eq (fields : List (String × JSValue)) :
    buildStore (CreatorResult.ret (RawValue.obj fields)) = Except.ok (builtResult fields) := by
  cases hrs : objLookup fields "resetStore" with
  | none =>
      cases hrst : objLookup fields "resetState" with
      | none =>
          simp [buildStore, builtResult, resetStoreValue, resetStateValue, isFunction,
            hrs, hrst]
      | some v2 =>
          cases v2 <;>
            simp [buildStore, builtResult, resetStoreValue, resetStateValue, isFunction,
              hrs, hrst]
  | some v =>
      cases v with
      | data d =>
          cases hrst : objLookup fields "resetState" with
          | none =>
              simp [buildStore, builtResult, resetStoreValue, resetStateValue, isFunction,
                hrs, hrst]
          | some v2 =>
              cases v2 <;>
                simp [buildStore, builtResult, resetStoreValue, resetStateValue, isFunction,
                  hrs, hrst]
      | fn f =>
          cases hrst : objLookup fields "resetState" with
          | none =>
              simp [buildStore, builtResult, resetStoreValue, resetStateValue, isFunction,
                hrs, hrst]
          | some v2 =>
              cases v2 <;>
                simp [buildStore, builtResult, resetStoreValue, resetStateValue, isFunction,
                  hrs, hrst]

theorem buildStore_obj_inv (fields : List (String × JSValue)) (r : BuildResult)
    (h : buildStore (CreatorResult.ret (RawValue.obj fields)) = Except.ok r) :
    r = builtResult fields := by
  rw [buildStore_obj_eq] at h
  injection h with h2
  exact h2.symm

theorem snapshot_builtResult (fields : List (String × JSValue)) :
    (builtResult fields).store.snapshot = buildInitialState fields := rfl

theorem objLookup_builtState (fields : List (String × JSValue)) (k : String) :
    objLookup (builtResult fields).store.state k =
      if k = "resetStore" then some (resetStoreValue fields)
      else if k = "resetState" then some (resetStateValue fields)
      else objLookup fields k := by
  show objLookup (mergeState fields
      [("resetStore", resetStoreValue fields),
       ("resetState", resetStateValue fields)]) k = _
  rw [objLookup_mergeState_nodup _ _ _ (by simp)]
  by_cases h1 : k = "resetStore"
  · simp [objLookup, h1, firstSome]
  · by_cases h2 : k = "resetState" <;> simp [objLookup, h1, h2, firstSome]

/-! Semantics of the two injected default operations. -/

theorem objLookup_runDefaultResetStore (snap : List (String × DataVal))
    (st : Store) (k : String) (h : (snap.map Prod.fst).Nodup) :
    objLookup (runDefaultResetStore snap st).state k =
      firstSome ((objLookup snap k).map JSValue.data) (objLookup st.state k) := by
  show objLookup (mergeState st.state
      (snap.map (fun kd => (kd.1, JSValue.data kd.2)))) k = _
  rw [objLookup_mergeState_nodup, objLookup_map]
  rw [keys_map_snd]
  exact h

theorem objLookup_runDefaultResetState (snap : List (String × DataVal))
    (args : List KeyArg) (st : Store) (k : String) :
    objLookup (runDefaultResetState snap args st).state k =
      if k ∈ flattenKeys args ∧ jsInSnapshot snap k = true
      then some (snapshotRead snap k)
      else objLookup st.state k := by
  show objLookup (mergeState st.state (stageResetValues snap (flattenKeys args))) k = _
  rw [objLookup_mergeState_nodup _ _ _ (nodup_keys_stageResetValues snap (flattenKeys args)),
    objLookup_stageResetValues]
  by_cases h : k ∈ flattenKeys args ∧ jsInSnapshot snap k = true <;> simp [h, firstSome]

/-- Extensionality of the default resetState in the flattened key set: only
the set of flattened names decides the observable result. -/
theorem runDefaultResetState_ext (snap : List (String × DataVal)) (st : Store)
    (args1 args2 : List KeyArg)
    (hset : ∀ k, k ∈ flattenKeys args1 ↔ k ∈ flattenKeys args2) (k : String) :
    objLookup (runDefaultResetState snap args1 st).state k =
      objLookup (runDefaultResetState snap args2 st).state k := by
  rw [objLookup_runDefaultResetState, objLookup_runDefaultResetState]
  by_cases hm : k ∈ flattenKeys args1
  · have hm2 := (hset k).mp hm
    by_cases hin : jsInSnapshot snap k = true <;> simp [hm, hm2, hin]
  · have hm2 : k ∉ flattenKeys args2 := fun hc => hm ((hset k).mpr hc)
    simp [hm, hm2]

/-! Concrete material for witnesses: the counter store of the repository's
tests and documentation. -/

/-- Raw state of the example counter store: two data fields and one
behaviour field. -/
def exFields : List (String × JSValue) :=
  [("count", JSValue.data (DataVal.vnum 0)),
   ("secondaryCount", JSValue.data (DataVal.vnum 10)),
   ("increment", JSValue.fn (FuncVal.userFn 0))]

/-- Behaviour of the user functions of the example store: every user
function merges an incremented count into the state. -/
def exSem : Nat → List (String × JSValue) → List (String × JSValue) :=
  fun _ s =>
    match objLookup s "count" with
    | some (JSValue.data (DataVal.vnum n)) =>
        objSet s "count" (JSValue.data (DataVal.vnum (n + 1)))
    | _ => s

/-- Two prior merge-writes used by witnesses. -/
def exWrites : List (List (String × JSValue)) :=
  [[("count", JSValue.data (DataVal.vnum 5))],
   [("secondaryCount", JSValue.data (DataVal.vnum 15))]]

/-- The example store after the two prior writes. -/
def exPre : Store := applyWrites (builtResult exFields).store exWrites

/-- The example store after the prior writes and a resetStore call. -/
def c1Post : Store := (callField exSem exPre "resetStore" []).getD exPre

/-- The example store after the prior writes and a resetState call naming
only the count field. -/
def c2Post : Store :=
  (callField exSem exPre "resetState" [KeyArg.single "count"]).getD exPre

/-! Claim theorems. -/

/-- C1: for every store built by createWithReset whose resetStore field is
the injected default closure, and for every sequence of prior merge-writes,
after the call to resetStore returns, the live state holds, at every key of
the Initial Snapshot, exactly the snapshotted construction-time value.
Equality of `DataVal` is reference equality for reference-typed values, so
this is the shallow, by-reference restoration guarantee. -/
theorem resetStore_restores_snapshot
    (fields : List (String × JSValue))
    (writes : List (List (String × JSValue)))
    (userSem : Nat → List (String × JSValue) → List (String × JSValue))
    (r : BuildResult)
    (hbuild : buildStore (CreatorResult.ret (RawValue.obj fields)) = Except.ok r)
    (hdefault : objLookup (applyWrites r.store writes).state "resetStore" =
      some (JSValue.fn (FuncVal.defResetStore r.store.snapshot)))
    (st2 : Store)
    (hcall : callField userSem (applyWrites r.store writes) "resetStore" [] = some st2) :
    ∀ k d, objLookup r.store.snapshot k = some d →
      objLookup st2.state k = some (JSValue.data d) := by
  obtain rfl := buildStore_obj_inv fields r hbuild
  intro k d hk
  simp only [callField, hdefault] at hcall
  injection hcall with h3
  subst h3
  rw [snapshot_builtResult] at hk ⊢
  rw [objLookup_runDefaultResetStore _ _ _ (nodup_keys_buildInitialState fields)]
  rw [hk]
  simp [firstSome]

/-- Witness for C1 at the example store: after writes setting count to 5
and secondaryCount to 15, resetStore restores count to 0. -/
theorem resetStore_restores_snapshot_witness :
    objLookup c1Post.state "count" = some (JSValue.data (DataVal.vnum 0)) :=
  resetStore_restores_snapshot exFields exWrites exSem (builtResult exFields)
    (buildStore_obj_eq exFields) (by decide) c1Post (by decide)
    "count" (DataVal.vnum 0) (by decide)

/-- C2: for every store built by createWithReset whose resetState field is
the injected default closure, and for every sequence of prior merge-writes,
a call resetState(names...) sets each named key present in the Initial
Snapshot to its snapshotted value, and every key not named in the call,
including snapshot keys that were not requested, keeps exactly its pre-call
value. -/
theorem resetState_resets_named_and_frames_rest
    (fields : List (String × JSValue))
    (writes : List (List (String × JSValue)))
    (userSem : Nat → List (String × JSValue) → List (String × JSValue))
    (r : BuildResult)
    (hbuild : buildStore (CreatorResult.ret (RawValue.obj fields)) = Except.ok r)
    (args : List KeyArg)
    (st2 : Store)
    (hdefault : objLookup (applyWrites r.store writes).state "resetState" =
      some (JSValue.fn (FuncVal.defResetState r.store.snapshot)))
    (hcall : callField userSem (applyWrites r.store writes) "resetState" args = some st2) :
    (∀ k d, k ∈ flattenKeys args → objLookup r.store.snapshot k = some d →
        objLookup st2.state k = some (JSValue.data d)) ∧
    (∀ k, k ∉ flattenKeys args →
        objLookup st2.state k = objLookup (applyWrites r.store writes).state k) := by
  obtain rfl := buildStore_obj_inv fields r hbuild
  simp only [callField, hdefault] at hcall
  injection hcall with h3
  subst h3
  constructor
  · intro k d hmem hk
    rw [objLookup_runDefaultResetState,
      if_pos ⟨hmem, by simp [jsInSnapshot, hk]⟩]
    simp [snapshotRead, hk]
  · intro k hmem
    rw [objLookup_runDefaultResetState, if_neg (fun hc => hmem hc.1)]

/-- Witness for C2 at the example store: resetState with the single name
count restores count to 0 and leaves secondaryCount at its pre-call
value. -/
theorem resetState_resets_named_and_frames_rest_witness :
    objLookup c2Post.state "count" = some (JSValue.data (DataVal.vnum 0)) ∧
    objLookup c2Post.state "secondaryCount" = objLookup exPre.state "secondaryCount" := by
  have h := resetState_resets_named_and_frames_rest exFields exWrites exSem
    (builtResult exFields) (buildStore_obj_eq exFields) [KeyArg.single "count"] c2Post
    (by decide) (by decide)
  exact ⟨h.1 "count" (DataVal.vnum 0) (by decide) (by decide),
    h.2 "secondaryCount" (by decide)⟩

/-- C3: if the initializer returns a non-object (null, undefined or a
primitive), construction fails synchronously inside the wrapper with the
TypeError that JavaScript raises there, the InvalidStateShapeError of the
specification's error taxonomy, and the factory returns no store at all, so
no partially-initialized store is ever produced. -/
theorem nonObject_initializer_rejected (p : PrimVal) :
    createWithReset (fun _ => CreatorResult.ret (RawValue.nonObject p)) =
      Except.error typeErrorName := by
  cases p <;> rfl

/-- C5: the observable effect of the default resetState depends only on the
set of names obtained by flattening its arguments one level; in particular
resetState(k1, k2), resetState([k1, k2]) and resetState(k1, [k2]) produce
identical resulting states, and duplicates and argument order never change
the outcome. -/
theorem resetState_flatten_equivalence (snap : List (String × DataVal)) (st : Store) :
    (∀ args1 args2 : List KeyArg,
        (∀ k, k ∈ flattenKeys args1 ↔ k ∈ flattenKeys args2) →
        ∀ k, objLookup (runDefaultResetState snap args1 st).state k =
          objLookup (runDefaultResetState snap args2 st).state k) ∧
    (∀ k1 k2 k : String,
        objLookup (runDefaultResetState snap
            [KeyArg.single k1, KeyArg.single k2] st).state k =
          objLookup (runDefaultResetState snap
            [KeyArg.list [k1, k2]] st).state k ∧
        objLookup (runDefaultResetState snap
            [KeyArg.single k1, KeyArg.single k2] st).state k =
          objLookup (runDefaultResetState snap
            [KeyArg.single k1, KeyArg.list [k2]] st).state k) := by
  refine ⟨runDefaultResetState_ext snap st, ?_⟩
  intro k1 k2 k
  exact ⟨runDefaultResetState_ext snap st _ _ (fun _ => Iff.rfl) k,
    runDefaultResetState_ext snap st _ _ (fun _ => Iff.rfl) k⟩

/-- Witness for C5 at the example store: the spread form and the array form
of resetState agree at the count key. -/
theorem resetState_flatten_equivalence_witness :
    objLookup (runDefaultResetState (buildInitialState exFields)
        [KeyArg.single "count", KeyArg.single "secondaryCount"] exPre).state "count" =
      objLookup (runDefaultResetState (buildInitialState exFields)
        [KeyArg.list ["count", "secondaryCount"]] exPre).state "count" :=
  (resetState_flatten_equivalence (buildInitialState exFields) exPre).1
    [KeyArg.single "count", KeyArg.single "secondaryCount"]
    [KeyArg.list ["count", "secondaryCount"]] (fun _ => Iff.rfl) "count"

/-- Counterexample to C6 as stated: toString is not present in the Initial
Snapshot of the example store, yet the guard key in initialState finds it
on Object.prototype, so the default resetState stages the inherited
built-in Object.prototype.toString and the merge adds it to the state as an
own field: the call is not a no-op and the state is not deep-equal to its
pre-call value. -/
theorem resetState_inherited_name_not_noop :
    objLookup (buildInitialState exFields) "toString" = none ∧
    stageResetValues (buildInitialState exFields)
        (flattenKeys [KeyArg.single "toString"]) =
      [("toString", JSValue.fn (FuncVal.protoFn "toString"))] ∧
    runDefaultResetState (buildInitialState exFields) [KeyArg.single "toString"]
        (builtResult exFields).store ≠ (builtResult exFields).store :=
  ⟨by decide, by decide, by decide⟩

/-- C6 (amended): every name that is neither present in the Initial
Snapshot nor a member name plain objects inherit from Object.prototype,
including behaviour field names and names that never existed in the raw
state, stages no entry and raises no error, so a resetState call naming
only such names leaves the store unchanged.  The original claim fails for
names the in operator finds on the prototype chain, such as toString; see
the counterexample. -/
theorem resetState_unknown_names_noop
    (snap : List (String × DataVal)) (st : Store) (args : List KeyArg)
    (habsent : ∀ k, k ∈ flattenKeys args →
        objLookup snap k = none ∧ k ∉ objectProtoNames) :
    stageResetValues snap (flattenKeys args) = [] ∧
    runDefaultResetState snap args st = st := by
  have hin : ∀ key ∈ flattenKeys args, jsInSnapshot snap key = false := by
    intro key hkey
    obtain ⟨h1, h2⟩ := habsent key hkey
    simp [jsInSnapshot, h1, h2]
  have hstage : stageResetValues snap (flattenKeys args) = [] :=
    foldl_stageStep_absent snap (flattenKeys args) [] hin
  refine ⟨hstage, ?_⟩
  show setMerge st (stageResetValues snap (flattenKeys args)) = st
  rw [hstage]
  rfl

/-- Witness for the amended C6 at the example store: resetState naming a
nonexistent field and a behaviour field, neither of them inherited from
Object.prototype, stages nothing and is a no-op. -/
theorem resetState_unknown_names_noop_witness :
    stageResetValues (buildInitialState exFields)
        (flattenKeys [KeyArg.single "nonexistentField", KeyArg.single "increment"]) = [] ∧
    runDefaultResetState (buildInitialState exFields)
        [KeyArg.single "nonexistentField", KeyArg.single "increment"]
        (builtResult exFields).store = (builtResult exFields).store :=
  resetState_unknown_names_noop (buildInitialState exFields) (builtResult exFields).store
    [KeyArg.single "nonexistentField", KeyArg.single "increment"] (by decide)

/-- C10: calling the default resetState with zero arguments flattens to no
names, stages an empty partial object, and the single merge-style write of
that empty object leaves the store unchanged. -/
theorem resetState_zero_args_noop (snap : List (String × DataVal)) (st : Store) :
    flattenKeys [] = [] ∧ stageResetValues snap (flattenKeys []) = [] ∧
    runDefaultResetState snap [] st = st :=
  ⟨rfl, rfl, rfl⟩

/-- Concrete raw state whose author supplies a callable resetStore of their
own. -/
def exUserFields : List (String × JSValue) :=
  [("count", JSValue.data (DataVal.vnum 0)),
   ("resetStore", JSValue.fn (FuncVal.userFn 7))]

/-- User behaviour distinguishable from the default snapshot-merge: it
records which user function ran in a calls field. -/
def exUserSem : Nat → List (String × JSValue) → List (String × JSValue) :=
  fun i s => objSet s "calls" (JSValue.data (DataVal.vnum (Int.ofNat i)))

/-- Counterexample to C4 as stated: even when the raw state supplies its
own callable resetStore, the construction still allocates the default
resetStore closure, because the two const definitions of the defaults in
the wrapper execute unconditionally; only which value the field receives is
conditional.  The user's callable is nevertheless the one exposed. -/
theorem default_closure_constructed_despite_user_override :
    buildStore (CreatorResult.ret (RawValue.obj exUserFields)) =
      Except.ok (builtResult exUserFields) ∧
    (builtResult exUserFields).constructedDefaultResetStore = true ∧
    objLookup (builtResult exUserFields).store.state "resetStore" =
      some (JSValue.fn (FuncVal.userFn 7)) :=
  ⟨buildStore_obj_eq exUserFields, rfl, by decide⟩

/-- C4 (amended): for every raw state that defines a callable field named
resetStore (respectively resetState), the built store exposes the user's
callable verbatim as that field, and calling it runs the user's
implementation, whatever it is, so the default snapshot-merge is never
invoked for that name.  (The default closures are still allocated
unconditionally, which is the part of the original claim that fails; see
the counterexample.) -/
theorem user_reset_callables_used_verbatim :
    (∀ (fields : List (String × JSValue)) (i : Nat) (r : BuildResult),
        objLookup fields "resetStore" = some (JSValue.fn (FuncVal.userFn i)) →
        buildStore (CreatorResult.ret (RawValue.obj fields)) = Except.ok r →
        objLookup r.store.state "resetStore" = some (JSValue.fn (FuncVal.userFn i)) ∧
        ∀ (userSem : Nat → List (String × JSValue) → List (String × JSValue))
          (args : List KeyArg),
          callField userSem r.store "resetStore" args =
            some { r.store with state := userSem i r.store.state }) ∧
    (∀ (fields : List (String × JSValue)) (j : Nat) (r : BuildResult),
        objLookup fields "resetState" = some (JSValue.fn (FuncVal.userFn j)) →
        buildStore (CreatorResult.ret (RawValue.obj fields)) = Except.ok r →
        objLookup r.store.state "resetState" = some (JSValue.fn (FuncVal.userFn j)) ∧
        ∀ (userSem : Nat → List (String × JSValue) → List (String × JSValue))
          (args : List KeyArg),
          callField userSem r.store "resetState" args =
            some { r.store with state := userSem j r.store.state }) := by
  constructor
  · intro fields i r hfield hbuild
    obtain rfl := buildStore_obj_inv fields r hbuild
    have hstate : objLookup (builtResult fields).store.state "resetStore" =
        some (JSValue.fn (FuncVal.userFn i)) := by
      rw [objLookup_builtState, if_pos rfl]
      simp [resetStoreValue, hfield]
    refine ⟨hstate, ?_⟩
    intro userSem args
    simp [callField, hstate]
  · intro fields j r hfield hbuild
    obtain rfl := buildStore_obj_inv fields r hbuild
    have hstate : objLookup (builtResult fields).store.state "resetState" =
        some (JSValue.fn (FuncVal.userFn j)) := by
      rw [objLookup_builtState, if_neg (by decide), if_pos rfl]
      simp [resetStateValue, hfield]
    refine ⟨hstate, ?_⟩
    intro userSem args
    simp [callField, hstate]

/-- Witness for the amended C4 at the concrete override store: the user's
callable is exposed verbatim and calling it runs the user's behaviour. -/
theorem user_reset_callables_used_verbatim_witness :
    objLookup (builtResult exUserFields).store.state "resetStore" =
      some (JSValue.fn (FuncVal.userFn 7)) ∧
    callField exUserSem (builtResult exUserFields).store "resetStore" [] =
      some { (builtResult exUserFields).store with
             state := exUserSem 7 (builtResult exUserFields).store.state } := by
  have h := user_reset_callables_used_verbatim.1 exUserFields 7 (builtResult exUserFields)
    (by decide) (buildStore_obj_eq exUserFields)
  exact ⟨h.1, h.2 exUserSem []⟩

/-- C7: for every raw state, the Initial Snapshot holds, at every key,
exactly the raw value when that value is not callable and nothing
otherwise, so its key set is exactly the set of data fields; and the
snapshot is fixed for the store's entire lifetime: no sequence of writes
and calls ever changes it. -/
theorem snapshot_keys_and_immutability
    (fields : List (String × JSValue)) (r : BuildResult)
    (hnodup : (fields.map Prod.fst).Nodup)
    (hbuild : buildStore (CreatorResult.ret (RawValue.obj fields)) = Except.ok r) :
    (∀ k, objLookup r.store.snapshot k =
        match objLookup fields k with
        | some (JSValue.data d) => some d
        | _ => none) ∧
    (∀ k, (objLookup r.store.snapshot k).isSome ↔
        ∃ d, objLookup fields k = some (JSValue.data d)) ∧
    (∀ (userSem : Nat → List (String × JSValue) → List (String × JSValue))
        (ops : List StoreOp),
        (applyOps userSem r.store ops).snapshot = r.store.snapshot) := by
  obtain rfl := buildStore_obj_inv fields r hbuild
  refine ⟨?_, ?_, ?_⟩
  · intro k
    rw [snapshot_builtResult]
    exact objLookup_buildInitialState fields k hnodup
  · intro k
    rw [snapshot_builtResult, objLookup_buildInitialState fields k hnodup]
    cases hv : objLookup fields k with
    | none => simp
    | some v => cases v <;> simp
  · intro userSem ops
    exact snapshot_applyOps userSem (builtResult fields).store ops

/-- Witness for C7 at the example store: the snapshot holds count but not
the behaviour field increment, and stays unchanged under a write followed
by a resetStore call. -/
theorem snapshot_keys_and_immutability_witness :
    objLookup (builtResult exFields).store.snapshot "count" =
      some (DataVal.vnum 0) ∧
    objLookup (builtResult exFields).store.snapshot "increment" = none ∧
    (applyOps exSem (builtResult exFields).store
        [StoreOp.write [("count", JSValue.data (DataVal.vnum 5))],
         StoreOp.call "resetStore" []]).snapshot =
      (builtResult exFields).store.snapshot := by
  have h := snapshot_keys_and_immutability exFields (builtResult exFields)
    (by decide) (buildStore_obj_eq exFields)
  refine ⟨?_, ?_, h.2.2 exSem _⟩
  · exact (h.1 "count").trans (by decide)
  · exact (h.1 "increment").trans (by decide)

/-- C8: when the caller-supplied initializer throws during construction,
the factory propagates that same error synchronously to its caller and
produces no store; and the result of construction depends only on the
first invocation of the creator, so a failed construction is never caught,
recovered or retried through further invocations. -/
theorem initializer_throw_propagated :
    (∀ (creator : Nat → CreatorResult) (e : String),
        creator 0 = CreatorResult.thrown e →
        createWithReset creator = Except.error e) ∧
    (∀ c1 c2 : Nat → CreatorResult, c1 0 = c2 0 →
        createWithReset c1 = createWithReset c2) := by
  constructor
  · intro creator e h
    show buildStore (creator 0) = Except.error e
    rw [h]
    rfl
  · intro c1 c2 h
    show buildStore (c1 0) = buildStore (c2 0)
    rw [h]

/-- Witness for C8: a throwing creator makes the factory fail with exactly
the thrown error. -/
theorem initializer_throw_propagated_witness :
    createWithReset (fun _ => CreatorResult.thrown "boom") = Except.error "boom" :=
  initializer_throw_propagated.1 (fun _ => CreatorResult.thrown "boom") "boom" rfl

/-- Concrete raw state with a non-callable resetStore field, used by the C9
witness. -/
def exBadFields : List (String × JSValue) :=
  [("count", JSValue.data (DataVal.vnum 0)),
   ("resetStore", JSValue.data (DataVal.vstr "oops"))]

/-- The bad store after calling its (injected) resetStore once. -/
def c9Post : Store :=
  (callField exSem (builtResult exBadFields).store "resetStore" []).getD
    (builtResult exBadFields).store

/-- C9: when the raw state defines a non-callable resetStore field,
construction replaces it with the injected default closure in the produced
state, yet the name and its original non-callable value are still captured
in the Initial Snapshot; calling the injected default then merge-writes
that original value back over the function, so afterwards the resetStore
field is no longer callable. -/
theorem nonCallable_resetStore_clobbers_injected_default
    (fields : List (String × JSValue)) (d : DataVal) (r : BuildResult)
    (hnodup : (fields.map Prod.fst).Nodup)
    (hfield : objLookup fields "resetStore" = some (JSValue.data d))
    (hbuild : buildStore (CreatorResult.ret (RawValue.obj fields)) = Except.ok r) :
    objLookup r.store.state "resetStore" =
      some (JSValue.fn (FuncVal.defResetStore r.store.snapshot)) ∧
    objLookup r.store.snapshot "resetStore" = some d ∧
    (∀ (userSem : Nat → List (String × JSValue) → List (String × JSValue))
        (st2 : Store),
        callField userSem r.store "resetStore" [] = some st2 →
        objLookup st2.state "resetStore" = some (JSValue.data d) ∧
        isFunction (JSValue.data d) = false) := by
  obtain rfl := buildStore_obj_inv fields r hbuild
  have hsnap : objLookup (builtResult fields).store.snapshot "resetStore" = some d := by
    rw [snapshot_builtResult, objLookup_buildInitialState fields _ hnodup, hfield]
  have hstate : objLookup (builtResult fields).store.state "resetStore" =
      some (JSValue.fn (FuncVal.defResetStore (builtResult fields).store.snapshot)) := by
    rw [objLookup_builtState, if_pos rfl]
    simp [resetStoreValue, hfield, snapshot_builtResult]
  refine ⟨hstate, hsnap, ?_⟩
  intro userSem st2 hcall
  simp only [callField, hstate] at hcall
  injection hcall with h3
  subst h3
  refine ⟨?_, rfl⟩
  rw [snapshot_builtResult] at hsnap ⊢
  rw [objLookup_runDefaultResetStore _ _ _ (nodup_keys_buildInitialState fields), hsnap]
  simp [firstSome]

/-- Witness for C9 at the concrete bad store: after the injected resetStore
runs, the resetStore field holds the original non-callable string. -/
theorem nonCallable_resetStore_clobbers_witness :
    objLookup c9Post.state "resetStore" =
      some (JSValue.data (DataVal.vstr "oops")) := by
  have h := nonCallable_resetStore_clobbers_injected_default exBadFields
    (DataVal.vstr "oops") (builtResult exBadFields) (by decide) (by decide)
    (buildStore_obj_eq exBadFields)
  exact (h.2.2 exSem c9Post (by decide)).1

end ZustandWithReset
